import Mathlib

set_option maxRecDepth 16384
set_option maxHeartbeats 1000000

/-!
Verification development for the bibfixer repository (src/app.py,
src/bibfixer/agent.py, src/bibfixer/structured_agent.py).

The Python code is shallowly embedded: pure string manipulation becomes
Lean functions over `String`/`List Char`; network calls become explicit
oracle values (`Except` outcomes of each request strategy); stderr
warnings become an explicit warning list in the result.

Braces inside string and character literals are written with the escapes
\x7b and \x7d throughout.
-/

/-! ### Models of the Python string primitives used by the source -/

def openBr : Char := '\x7b'

def closeBr : Char := '\x7d'

def isBraceChar (c : Char) : Bool := c = openBr || c = closeBr

def isPyWs (c : Char) : Bool :=
  c = ' ' || c = '\t' || c = '\n' || c = '\r' || c = '\x0b' || c = '\x0c'

/-- Model of Python `s.strip(chars)` on char lists: drop every leading and
trailing character satisfying `p`. -/
def stripBy (p : Char → Bool) (l : List Char) : List Char :=
  ((l.dropWhile p).reverse.dropWhile p).reverse

/-- Model of Python `s.strip("\x7b\x7d")`. -/
def pyStripBraces (s : String) : String :=
  String.mk (stripBy isBraceChar s.data)

/-- Model of Python `s.strip()` (whitespace strip). -/
def pyStripWs (s : String) : String :=
  String.mk (stripBy isPyWs s.data)

/-- Infix test on char lists, used to model the Python substring test. -/
def infixOfB (t : List Char) : List Char → Bool
  | [] => t.isPrefixOf []
  | c :: cs => t.isPrefixOf (c :: cs) || infixOfB t cs

/-- Substring test: model of Python `t in s`. -/
def strContains (s t : String) : Bool :=
  infixOfB t.data s.data

/-- Helper for `beforeFirst`: scan for the first position where `sep`
is a prefix of the remainder and return everything before it; if `sep`
never occurs, return the whole list. -/
def beforeFirstAux (sep : List Char) : List Char → List Char
  | [] => []
  | c :: cs => if sep.isPrefixOf (c :: cs) then [] else c :: beforeFirstAux sep cs

/-- Model of Python `s.split(sep)[0]` for a non-empty separator: the
substring before the first occurrence of `sep`, or all of `s` when `sep`
does not occur. -/
def beforeFirst (s sep : String) : String :=
  String.mk (beforeFirstAux sep.data s.data)

/-! ### Model of the bibtexparser collaborator

`bibtexparser.loads` is a third-party black box (spec §6: it parses text
into a list of records).  It is modelled here as an executable parser for
well-formed records `@type\x7bkey, field = \x7bvalue\x7d, ...\x7d`:
entry types and field names are lowercased, the delimiter braces of each
field value are removed (inner braces are kept), and on malformed input
the remaining text yields no further entries. -/

structure BibEntry where
  entryType : String
  citeKey : String
  fields : List (String × String)
deriving DecidableEq, Repr

def skipWs : List Char → List Char :=
  List.dropWhile isPyWs

def toLowerChars (l : List Char) : List Char :=
  l.map Char.toLower

/-- Split at the first occurrence of delimiter `d`, returning the parts
before and after it; `none` when `d` does not occur. -/
def splitAtChar (d : Char) : List Char → Option (List Char × List Char)
  | [] => none
  | c :: cs =>
    if c = d then some ([], cs)
    else (splitAtChar d cs).map (fun p => (c :: p.1, p.2))

/-- Take characters up to (excluding) the first `,` or closing brace;
also return the remainder starting at that delimiter. -/
def takeUntilDelim : List Char → List Char × List Char
  | [] => ([], [])
  | c :: cs =>
    if c = ',' || c = closeBr then ([], c :: cs)
    else
      let p := takeUntilDelim cs
      (c :: p.1, p.2)

/-- Read a brace-balanced value.  Called just after an opening brace;
returns the content up to the matching closing brace and the remainder
after it. -/
def readBalanced : Nat → Nat → List Char → List Char → Option (List Char × List Char)
  | 0, _, _, _ => none
  | _ + 1, _, _, [] => none
  | fuel + 1, depth, acc, c :: cs =>
    if c = closeBr then
      if depth = 0 then some (acc.reverse, cs)
      else readBalanced fuel (depth - 1) (c :: acc) cs
    else if c = openBr then readBalanced fuel (depth + 1) (c :: acc) cs
    else readBalanced fuel depth (c :: acc) cs

/-- Read one field value (braced or bare). -/
def readValue (fuel : Nat) (cs : List Char) : Option (List Char × List Char) :=
  match skipWs cs with
  | [] => none
  | c :: rest =>
    if c = openBr then readBalanced fuel 0 [] rest
    else
      let p := takeUntilDelim (c :: rest)
      some (stripBy isPyWs p.1, p.2)

/-- Parse the `field = value` list of one record, ending at the record's
closing brace. -/
def parseFields : Nat → List Char → Option (List (String × String) × List Char)
  | 0, _ => none
  | fuel + 1, cs =>
    match skipWs cs with
    | [] => none
    | c :: rest =>
      if c = closeBr then some ([], rest)
      else
        match splitAtChar '=' (c :: rest) with
        | none => none
        | some (nameCs, afterEq) =>
          match readValue fuel afterEq with
          | none => none
          | some (valCs, rest1) =>
            let nm := String.mk (toLowerChars (stripBy isPyWs nameCs))
            let vl := String.mk valCs
            match skipWs rest1 with
            | [] => none
            | d :: rest2 =>
              if d = ',' then
                (parseFields fuel rest2).map (fun p => ((nm, vl) :: p.1, p.2))
              else if d = closeBr then some ([(nm, vl)], rest2)
              else none

/-- Drop characters up to and including the next `@`. -/
def dropToAt : List Char → Option (List Char)
  | [] => none
  | c :: cs => if c = '@' then some cs else dropToAt cs

/-- Parse a sequence of records. -/
def parseEntries : Nat → List Char → List BibEntry
  | 0, _ => []
  | fuel + 1, cs =>
    match dropToAt cs with
    | none => []
    | some afterAt =>
      match splitAtChar openBr afterAt with
      | none => []
      | some (typeCs, afterOpen) =>
        let ty := String.mk (toLowerChars (stripBy isPyWs typeCs))
        let kp := takeUntilDelim afterOpen
        let key := String.mk (stripBy isPyWs kp.1)
        match kp.2 with
        | [] => []
        | d :: rest =>
          if d = ',' then
            match parseFields fuel rest with
            | none => []
            | some (fs, rest2) =>
              { entryType := ty, citeKey := key, fields := fs } :: parseEntries fuel rest2
          else if d = closeBr then
            { entryType := ty, citeKey := key, fields := [] } :: parseEntries fuel rest
          else []

/-- Model of `bibtexparser.loads(s).entries`. -/
def bibtexLoads (s : String) : List BibEntry :=
  parseEntries (s.length + 1) s.data

/-- Model of Python `entry.get(k, d)` on the field dictionary. -/
def entryGetD (e : BibEntry) (k d : String) : String :=
  match e.fields.lookup k with
  | some v => v
  | none => d

/-! ### Record Parser (BibFixAgent.parse_bibtex / StructuredBibFixAgent.parse_bibtex)

The two parse methods are identical except that agent.py omits the
`citation_key` entry of the returned dictionary; the fingerprint below
models the structured variant, which contains every field the claims
mention. -/

structure Fingerprint where
  title : String
  firstAuthor : String
  entryType : String
  citationKey : String
deriving DecidableEq, Repr

/-- Model of the first-author extraction in `parse_bibtex`
(agent.py lines 84-93 and structured_agent.py lines 149-157). -/
def firstAuthorOf (authors_str : String) : String :=
  if authors_str ≠ "" then
    if strContains authors_str " and " then pyStripWs (beforeFirst authors_str " and ")
    else if strContains authors_str "," then pyStripWs (beforeFirst authors_str ",")
    else pyStripWs authors_str
  else ""

/-- Title normalization in `parse_bibtex`: Python
`entry.get("title", "").strip("\x7b\x7d")`. -/
def titleNorm (t : String) : String :=
  pyStripBraces t

/-- Fingerprint computed from the first parsed entry. -/
def fingerprintOfEntry (e : BibEntry) : Fingerprint :=
  { title := titleNorm (entryGetD e "title" ""),
    firstAuthor := firstAuthorOf (entryGetD e "author" ""),
    entryType := e.entryType,
    citationKey := e.citeKey }

/-- Model of `parse_bibtex`: parse the text, fail when no entry parses,
and compute the fingerprint from the first entry. -/
def parse_bibtex (s : String) : Except String Fingerprint :=
  match bibtexLoads s with
  | [] => Except.error "Failed to parse BibTeX: No valid BibTeX entries found"
  | e :: _ => Except.ok (fingerprintOfEntry e)

/-! ### Prompt Composer

`_load_instructions_from_file` performs file access; its already-loaded
result is passed in as an `Option String` parameter. -/

/-- Preferences section appended by agent.py `_create_prompt`. -/
def prefHeader : String :=
  "\n5. Apply these user preferences to the formatting:\n"

/-- Preferences section appended by `_create_structured_prompt`. -/
def structuredPrefHeader : String :=
  "\nAdditional user preferences for formatting:\n"

/-- Opening part of the prompt of agent.py `_create_prompt`. -/
def promptBase (original_bibtex title first_author : String) : String :=
  "Please search the web for the following academic paper and correct/complete its BibTeX entry:\n\nTitle: \"" ++ title
    ++ "\"\nFirst Author: " ++ (if first_author ≠ "" then first_author else "(unknown)")
    ++ "\n\nOriginal BibTeX entry:\n```bibtex\n" ++ original_bibtex ++ "\n```\n"

/-- Closing directive of agent.py `_create_prompt`. -/
def promptClosing : String :=
  "\nReturn ONLY the corrected BibTeX entry, properly formatted. Do not include any explanation or additional text.\n"

/-- Model of `BibFixAgent._create_prompt` (also
`StructuredBibFixAgent._create_prompt`, which is textually identical). -/
def create_prompt (original_bibtex title first_author preferences : String)
    (instructions : Option String) : String :=
  promptBase original_bibtex title first_author
    ++ (match instructions with
        | some ins => "\n" ++ ins
        | none => "")
    ++ (if preferences ≠ "" then prefHeader ++ preferences ++ "\n" else "")
    ++ promptClosing

/-- Opening part of the prompt of `_create_structured_prompt`. -/
def structuredPromptBase (original_bibtex title first_author citation_key : String) : String :=
  "Please search for authoritative information about this academic paper and provide a corrected BibTeX entry:\n\nTitle: \"" ++ title
    ++ "\"\nFirst Author: " ++ (if first_author ≠ "" then first_author else "(unknown)")
    ++ "\nCitation Key: " ++ citation_key ++ " (DO NOT CHANGE THIS)"
    ++ "\n\nOriginal BibTeX entry:\n```bibtex\n" ++ original_bibtex ++ "\n```\n"
    ++ "\nCRITICAL: The citation_key field MUST be exactly \"" ++ citation_key ++ "\" - do not change it.\n"

/-- Closing directive of `_create_structured_prompt`. -/
def structuredPromptClosing : String :=
  "\nReturn the entry data in the structured format. Make sure to:\n- Keep the original citation_key unchanged\n- Use proper BibTeX author format: \"Last, First and Last2, First2\"\n- Include complete, accurate information from authoritative sources\n- Follow all formatting rules from the instructions above\n"

/-- Model of `StructuredBibFixAgent._create_structured_prompt`. -/
def create_structured_prompt (original_bibtex title first_author citation_key preferences : String)
    (instructions : Option String) : String :=
  structuredPromptBase original_bibtex title first_author citation_key
    ++ (match instructions with
        | some ins => "\n" ++ ins
        | none => "")
    ++ (if preferences ≠ "" then structuredPrefHeader ++ preferences ++ "\n" else "")
    ++ structuredPromptClosing

/-! ### Record Serializer (StructuredBibFixAgent._structured_entry_to_bibtex) -/

/-- Model of the Pydantic `BibTexEntry` schema: required string fields
plus the optional fields of structured_agent.py lines 41-67. -/
structure BibTexEntry where
  entry_type : String
  citation_key : String
  author : String
  title : String
  year : String
  journal : Option String := none
  booktitle : Option String := none
  volume : Option String := none
  number : Option String := none
  pages : Option String := none
  publisher : Option String := none
  address : Option String := none
  series : Option String := none
  edition : Option String := none
  chapter : Option String := none
  note : Option String := none
  organization : Option String := none
  school : Option String := none
  institution : Option String := none
deriving DecidableEq, Repr

/-- The fixed field order of `_structured_entry_to_bibtex`. -/
def field_order : List String :=
  ["author", "title", "journal", "booktitle", "year", "volume", "number",
   "pages", "publisher", "address", "series", "edition", "chapter", "note",
   "organization", "school", "institution"]

/-- Model of Python `getattr(structured_entry, field, None)`. -/
def fieldValue (e : BibTexEntry) : String → Option String
  | "author" => some e.author
  | "title" => some e.title
  | "year" => some e.year
  | "journal" => e.journal
  | "booktitle" => e.booktitle
  | "volume" => e.volume
  | "number" => e.number
  | "pages" => e.pages
  | "publisher" => e.publisher
  | "address" => e.address
  | "series" => e.series
  | "edition" => e.edition
  | "chapter" => e.chapter
  | "note" => e.note
  | "organization" => e.organization
  | "school" => e.school
  | "institution" => e.institution
  | _ => none

/-- One emitted field line, still carrying its trailing comma: Python
`f"  \x7bfield\x7d = \x7bformatted_value\x7d,"` with the title value
double-braced and every other value single-braced. -/
def fieldLine (f v : String) : String :=
  "  " ++ f ++ " = "
    ++ (if f = "title" then "\x7b\x7b" ++ v ++ "\x7d\x7d" else "\x7b" ++ v ++ "\x7d")
    ++ ","

/-- The lines emitted by the field loop: a field is skipped when its
value is `None` or whitespace-only after trimming. -/
def emittedFieldLines (e : BibTexEntry) : List String :=
  field_order.filterMap fun f =>
    match fieldValue e f with
    | none => none
    | some v => if pyStripWs v = "" then none else some (fieldLine f v)

/-- Model of Python `s.endswith(",")`. -/
def pyEndsWithComma (s : String) : Bool :=
  s.data.getLast? = some ','

/-- Model of Python `s[:-1]`. -/
def pyDropLast (s : String) : String :=
  String.mk s.data.dropLast

/-- Model of Python `lines[-1] = lines[-1][:-1]` guarded by
`lines[-1].endswith(",")`. -/
def dropLastComma : List String → List String
  | [] => []
  | [l] => [if pyEndsWithComma l then pyDropLast l else l]
  | l :: l2 :: ls => l :: dropLastComma (l2 :: ls)

/-- Model of Python `sep.join(lines)`. -/
def joinWith (sep : String) : List String → String
  | [] => ""
  | [x] => x
  | x :: x2 :: xs => x ++ sep ++ joinWith sep (x2 :: xs)

/-- Header line `@<entry_type>\x7b<citation_key>,`. -/
def headerLine (e : BibTexEntry) : String :=
  "@" ++ e.entry_type ++ "\x7b" ++ e.citation_key ++ ","

/-- Model of `_structured_entry_to_bibtex`. -/
def structured_entry_to_bibtex (e : BibTexEntry) : String :=
  joinWith "\n"
    (dropLastComma (headerLine e :: emittedFieldLines e) ++ ["\x7d"])

/-! ### Response Resolver

Network calls are modelled as oracle values: the outcome each request
strategy would produce.  `validate` models whether
`bibtexparser.loads` succeeds on a given text (its only observable
effect in the source is a stderr warning, collected here in
`warnings`). -/

inductive Stage where
  | structuredStage
  | augmentedStage
  | plainStage
deriving DecidableEq, Repr

structure ResolveOut where
  result : Except String String
  trace : List Stage
  warnings : List String
deriving Repr

/-- Warning printed when a returned text fails the best-effort parse
(agent.py lines 136-139 and 158-164). -/
def warnBadBibtex : String :=
  "Warning: Response may not be valid BibTeX format"

/-- Warning printed when the serialized structured entry fails the
best-effort parse (structured_agent.py lines 253-259); the source
appends the exception text, which the Bool-valued validator model
omits. -/
def warnBadGenerated : String :=
  "Warning: Generated BibTeX may have formatting issues"

/-- One item of an iterable Responses-API result: something with a
`type` attribute and a `content` list whose members may or may not
carry a `text` attribute. -/
structure RespItem where
  itemType : String
  content : List (Option String)
deriving DecidableEq, Repr

/-- The shape of the object returned by `client.responses.create`,
one constructor per branch of the `hasattr` cascade of agent.py
lines 117-131: an `output_text` attribute (possibly `None`), an
iterable of items, an `output` attribute, or anything else
(stringified). -/
inductive RespShape where
  | withOutputText (s : Option String)
  | iterable (items : List RespItem)
  | withOutput (s : String)
  | rawStr (s : String)
deriving DecidableEq, Repr

/-- Text extraction from the first `"message"` item of an iterable
response: the first content member carrying a text attribute
(agent.py lines 119-127; the loop breaks after the first message
item whether or not text was found). -/
def firstMessageText (items : List RespItem) : Option String :=
  match items.find? (fun it => it.itemType == "message") with
  | none => none
  | some it => if it.content ≠ [] then it.content.findSome? id else none

/-- The `revised_bibtex` value after the extraction cascade. -/
def extractText : RespShape → Option String
  | RespShape.withOutputText s => s
  | RespShape.iterable items => firstMessageText items
  | RespShape.withOutput s => some s
  | RespShape.rawStr s => some s

/-- Error message of the `ValueError` raised when extraction yields a
falsy value (agent.py line 133). -/
def extractionErr : String :=
  "Could not extract BibTeX from response"

/-- The fallback (plain chat-completions) path of
`BibFixAgent.revise_bibtex` (lines 141-169): `e` is the stringified
first-stage exception. -/
def resolveFallback (e : String) (plain : Except String String)
    (validate : String → Bool) : ResolveOut :=
  match plain with
  | Except.ok c =>
    { result := Except.ok c,
      trace := [Stage.augmentedStage, Stage.plainStage],
      warnings := if validate c then [] else [warnBadBibtex] }
  | Except.error e2 =>
    { result := Except.error
        ("Failed to call OpenAI API: " ++ e ++ " | Fallback also failed: " ++ e2),
      trace := [Stage.augmentedStage, Stage.plainStage],
      warnings := [] }

/-- The network fallback chain of `BibFixAgent.revise_bibtex`
(lines 106-169): attempt the augmented (web-search) strategy, extract
text, and fall back to the plain strategy when the request raises or
the extracted text is falsy. -/
def resolveAg (aug : Except String RespShape) (plain : Except String String)
    (validate : String → Bool) : ResolveOut :=
  match aug with
  | Except.error e => resolveFallback e plain validate
  | Except.ok resp =>
    match extractText resp with
    | none => resolveFallback extractionErr plain validate
    | some t =>
      if t = "" then resolveFallback extractionErr plain validate
      else
        { result := Except.ok t,
          trace := [Stage.augmentedStage],
          warnings := if validate t then [] else [warnBadBibtex] }

/-- System preamble prepended to the prompt for the augmented call
(agent.py lines 107-112). -/
def sysPreamble : String :=
  "You are a precise academic assistant that corrects and completes BibTeX entries. Always return valid BibTeX format.\n\n"

/-- Model of `BibFixAgent.revise_bibtex`: parse, compose the prompt,
then run the fallback chain against the client oracles. -/
def revise_bibtex (s preferences : String) (instructions : Option String)
    (augClient : String → Except String RespShape)
    (plainClient : String → Except String String)
    (validate : String → Bool) : ResolveOut :=
  match parse_bibtex s with
  | Except.error e => { result := Except.error e, trace := [], warnings := [] }
  | Except.ok fp =>
    let prompt := create_prompt s fp.title fp.firstAuthor preferences instructions
    resolveAg (augClient (sysPreamble ++ prompt)) (plainClient prompt) validate

/-- Model of `StructuredBibFixAgent._revise_bibtex_traditional`
(lines 272-308): plain chat completion, result returned after the
best-effort validation warning; a raise becomes
`RuntimeError("Failed to call API: ...")`. -/
def traditional_result (plain : Except String String)
    (validate : String → Bool) : Except String String × List String :=
  match plain with
  | Except.ok c => (Except.ok c, if validate c then [] else [warnBadBibtex])
  | Except.error e => (Except.error ("Failed to call API: " ++ e), [])

/-- Model of `StructuredBibFixAgent.revise_bibtex` (lines 211-270):
when structured output is enabled and the router is the direct
provider, attempt the schema-constrained request; a `None` parse or a
raise falls back to the traditional (plain) method.  Otherwise the
traditional method is used directly. -/
def structured_revise (router : String) (use_structured_output : Bool)
    (structuredResp : Except String (Option BibTexEntry))
    (plain : Except String String)
    (validate : String → Bool) : ResolveOut :=
  if use_structured_output && router == "openai" then
    match structuredResp with
    | Except.ok (some ent) =>
      let out := structured_entry_to_bibtex ent
      { result := Except.ok out,
        trace := [Stage.structuredStage],
        warnings := if validate out then [] else [warnBadGenerated] }
    | Except.ok none =>
      let p := traditional_result plain validate
      { result := p.1, trace := [Stage.structuredStage, Stage.plainStage], warnings := p.2 }
    | Except.error _ =>
      let p := traditional_result plain validate
      { result := p.1, trace := [Stage.structuredStage, Stage.plainStage], warnings := p.2 }
  else
    let p := traditional_result plain validate
    { result := p.1, trace := [Stage.plainStage], warnings := p.2 }

/-! ### UI pipeline (app.py Fix BibTeX handler)

app.py line 104 constructs `BibFixAgent(api_key=..., model=...,
router=..., openrouter_referer=..., openrouter_title=...)`; Python
keyword binding against `BibFixAgent.__init__` (agent.py lines 10-15,
parameters `api_key`, `prompt_file`, `provider`) is modelled
explicitly. -/

/-- Keyword parameters accepted by `BibFixAgent.__init__`. -/
def bibFixAgentInitParams : List String :=
  ["api_key", "prompt_file", "provider"]

/-- Keyword arguments passed by app.py lines 104-110. -/
def appAgentKwargs : List String :=
  ["api_key", "model", "router", "openrouter_referer", "openrouter_title"]

/-- Python keyword binding: the call raises `TypeError` at the first
keyword argument that no parameter accepts. -/
def bindKwargs (accepted kwargs : List String) : Except String Unit :=
  match kwargs.find? (fun k => !accepted.contains k) with
  | some k => Except.error ("TypeError: unexpected keyword argument " ++ k)
  | none => Except.ok ()

inductive UIEvent where
  | agentInit
  | parseRecords
  | networkCall
deriving DecidableEq, Repr

structure UIOutcome where
  errorMsg : Option String
  warningMsg : Option String
  output : Option String
  events : List UIEvent
deriving Repr

/-- The per-entry loop of app.py lines 120-136: revise each entry via
the agent; the first raise aborts the loop (and is caught by the
surrounding handler).  Returns the revised texts or the error, plus
the number of revision attempts made. -/
def processEntriesLoop (revise : String → String → Except String String)
    (writeEntry : BibEntry → String) (preferences : String) :
    List BibEntry → Except String (List String) × Nat
  | [] => (Except.ok [], 0)
  | e :: rest =>
    match revise (writeEntry e) preferences with
    | Except.error m => (Except.error m, 1)
    | Except.ok r =>
      match processEntriesLoop revise writeEntry preferences rest with
      | (Except.ok rs, n) => (Except.ok (r :: rs), n + 1)
      | (Except.error m, n) => (Except.error m, n + 1)

/-- Model of the Fix BibTeX button handler (app.py lines 79-149), after
the effective API key has been computed: empty-key and empty-content
guards, then a `try` block that constructs the agent, parses the
content and loops over the entries; any raise is surfaced as the single
message `"An error occurred: ..."`.  `writeEntry` models the
`BibTexWriter` collaborator and `revise` the agent network calls. -/
def fixBibtexHandler (effective_api_key bibtex_content preferences : String)
    (writeEntry : BibEntry → String)
    (revise : String → String → Except String String) : UIOutcome :=
  if effective_api_key = "" then
    { errorMsg := some "Please provide an API key (input or in secrets/environment).",
      warningMsg := none, output := none, events := [] }
  else if bibtex_content = "" then
    { errorMsg := some "Please enter BibTeX content.",
      warningMsg := none, output := none, events := [] }
  else
    match bindKwargs bibFixAgentInitParams appAgentKwargs with
    | Except.error m =>
      { errorMsg := some ("An error occurred: " ++ m),
        warningMsg := none, output := none, events := [UIEvent.agentInit] }
    | Except.ok _ =>
      match bibtexLoads bibtex_content with
      | [] =>
        { errorMsg := none, warningMsg := some "No BibTeX entries found.",
          output := none, events := [UIEvent.agentInit, UIEvent.parseRecords] }
      | e :: rest =>
        match processEntriesLoop revise writeEntry preferences (e :: rest) with
        | (Except.ok revised, n) =>
          { errorMsg := none, warningMsg := none,
            output := some (joinWith "\n\n" revised),
            events := [UIEvent.agentInit, UIEvent.parseRecords]
              ++ List.replicate n UIEvent.networkCall }
        | (Except.error m, n) =>
          { errorMsg := some ("An error occurred: " ++ m),
            warningMsg := none, output := none,
            events := [UIEvent.agentInit, UIEvent.parseRecords]
              ++ List.replicate n UIEvent.networkCall }

/-! ### Spec-side definitions

Each definition below follows the words of a claim of the specification,
for comparison with the definitions translated from the source. -/

/-- Author-extraction policy as claim C3 words it: substring before the
first `" and "` when present, else before the first comma, else the
whole trimmed string; empty when the record has no author field. -/
def specFirstAuthor (author : Option String) : String :=
  match author with
  | none => ""
  | some a =>
    if strContains a " and " then pyStripWs (beforeFirst a " and ")
    else if strContains a "," then pyStripWs (beforeFirst a ",")
    else pyStripWs a

/-- Remove one layer of enclosing braces, when the string starts with an
opening brace and ends with a closing brace. -/
def stripEnclosingLayer (s : String) : Option String :=
  match s.data with
  | [] => none
  | c :: cs =>
    if c = openBr && cs.getLast? = some closeBr then some (String.mk cs.dropLast)
    else none

/-- Title normalization as claim C4 words it: strip exactly one or two
layers of enclosing braces and nothing more. -/
def specStripOneOrTwoLayers (s : String) : String :=
  match stripEnclosingLayer s with
  | none => s
  | some s1 =>
    match stripEnclosingLayer s1 with
    | none => s1
    | some s2 => s2

/-- Entry whose title field value is enclosed in three brace layers
(as stored for the raw field `title=\x7b\x7b\x7b\x7ba\x7d\x7d\x7d\x7d`). -/
def c4Entry : BibEntry :=
  { entryType := "article", citeKey := "k",
    fields := [("title", "\x7b\x7b\x7ba\x7d\x7d\x7d")] }

/-- The fallback-chain shape asserted by claim C5: in strict mode with
the direct provider, whenever stage 1 (structured) fails and stage 3
(plain) is attempted, stage 2 (augmented web search) was attempted as
well. -/
def claimC5Chain : Prop :=
  ∀ (sResp : Except String (Option BibTexEntry)) (plain : Except String String)
    (validate : String → Bool),
    (∀ ent, sResp ≠ Except.ok (some ent)) →
    Stage.plainStage ∈ (structured_revise "openai" true sResp plain validate).trace →
    Stage.augmentedStage ∈ (structured_revise "openai" true sResp plain validate).trace

/-- Stage-1 failure of the non-strict resolver, with the stringified
exception the fallback path receives: the request raised, or the
extracted text was falsy (the `ValueError` of agent.py line 133). -/
def stage1Failure : Except String RespShape → Option String
  | Except.error e => some e
  | Except.ok r =>
    match extractText r with
    | none => some extractionErr
    | some t => if t = "" then some extractionErr else none

/-- Field value wrapping as claim C7 words it: the title value in a
doubled-brace group, every other value in a single-brace group. -/
def specWrap (f v : String) : String :=
  if f = "title" then "\x7b\x7b" ++ v ++ "\x7d\x7d" else "\x7b" ++ v ++ "\x7d"

/-- Emitted field lines as claim C7 words them, without the trailing
commas: fields in the fixed order, omitting every field whose value is
null or empty/whitespace-only after trimming. -/
def specFieldLines (e : BibTexEntry) : List String :=
  field_order.filterMap fun f =>
    match fieldValue e f with
    | none => none
    | some v => if pyStripWs v = "" then none else some ("  " ++ f ++ " = " ++ specWrap f v)

/-- Serialization as claim C7 words it: the header line, the emitted
field lines each followed by a comma except the final one, and the
closing brace. -/
def specSerialize (e : BibTexEntry) : String :=
  "@" ++ e.entry_type ++ "\x7b" ++ e.citation_key ++ ",\n"
    ++ joinWith ",\n" (specFieldLines e) ++ "\n\x7d"

/-- A structured result with every optional field absent. -/
def sampleEntry : BibTexEntry :=
  { entry_type := "article", citation_key := "doe2020",
    author := "Doe, John", title := "A Study", year := "2020" }

/-- The single-record input of the end-to-end scenario of claim C2. -/
def c2Input : String :=
  "@article\x7bdoe2020,title=\x7b\x7ba study\x7d\x7d,author=\x7bDoe, John\x7d,year=\x7b2020\x7d\x7d"

/-- A two-record input: the claim C2 record followed by a second
record. -/
def c10Input : String :=
  c2Input ++ "\n\n@misc\x7bk2,note=\x7bhi\x7d\x7d"

/-! ### Helper lemmas -/

theorem isPrefixOf_append_self (t b : List Char) : t.isPrefixOf (t ++ b) = true := by
  induction t with
  | nil => simp [List.isPrefixOf]
  | cons c cs ih => simp [List.isPrefixOf, ih]

theorem infixOfB_of_isPrefixOf {t l : List Char} (h : t.isPrefixOf l = true) :
    infixOfB t l = true := by
  cases l with
  | nil => simpa [infixOfB] using h
  | cons c cs => simp [infixOfB, h]

theorem infixOfB_append (a t b : List Char) : infixOfB t (a ++ (t ++ b)) = true := by
  induction a with
  | nil => exact infixOfB_of_isPrefixOf (isPrefixOf_append_self t b)
  | cons c cs ih => simp [infixOfB, ih]

theorem strContains_parts (s t : String) (a b : List Char)
    (h : s.data = a ++ (t.data ++ b)) : strContains s t = true := by
  unfold strContains
  rw [h]
  exact infixOfB_append a t.data b

theorem data_mk (l : List Char) : (String.mk l).data = l := rfl

theorem mk_data (s : String) : String.mk s.data = s := rfl

theorem dropWhile_head? {p : Char → Bool} {l : List Char} {c : Char}
    (h : (l.dropWhile p).head? = some c) : p c = false := by
  induction l with
  | nil => simp at h
  | cons x xs ih =>
    rw [List.dropWhile_cons] at h
    by_cases hx : p x
    · exact ih (by simpa [hx] using h)
    · simp [hx] at h
      subst h
      simpa using hx

theorem stripBy_prefix_decomp (p : Char → Bool) (l : List Char) :
    l.dropWhile p = stripBy p l ++ ((l.dropWhile p).reverse.takeWhile p).reverse := by
  have h := List.takeWhile_append_dropWhile p (l.dropWhile p).reverse
  have h2 := congrArg List.reverse h
  rw [List.reverse_append, List.reverse_reverse] at h2
  exact h2.symm

theorem stripBy_decomp (p : Char → Bool) (l : List Char) :
    ∃ a b, l = a ++ (stripBy p l ++ b)
      ∧ (∀ c ∈ a, p c = true) ∧ (∀ c ∈ b, p c = true) := by
  refine ⟨l.takeWhile p, ((l.dropWhile p).reverse.takeWhile p).reverse, ?_, ?_, ?_⟩
  · rw [← stripBy_prefix_decomp p l, List.takeWhile_append_dropWhile]
  · intro c hc
    exact List.mem_takeWhile_imp hc
  · intro c hc
    rw [List.mem_reverse] at hc
    exact List.mem_takeWhile_imp hc

theorem stripBy_head? {p : Char → Bool} {l : List Char} {c : Char}
    (h : (stripBy p l).head? = some c) : p c = false := by
  have hd := stripBy_prefix_decomp p l
  have hne : stripBy p l ≠ [] := by
    intro hnil
    rw [hnil] at h
    simp at h
  have : (l.dropWhile p).head? = some c := by
    rw [hd, List.head?_append, h]
    rfl
  exact dropWhile_head? this

theorem stripBy_getLast? {p : Char → Bool} {l : List Char} {c : Char}
    (h : (stripBy p l).getLast? = some c) : p c = false := by
  have hrev : (stripBy p l).reverse = (l.dropWhile p).reverse.dropWhile p := by
    unfold stripBy
    rw [List.reverse_reverse]
  have : ((l.dropWhile p).reverse.dropWhile p).head? = some c := by
    rw [← hrev, List.head?_reverse]
    exact h
  exact dropWhile_head? this

theorem data_comma : ("," : String).data = [','] := rfl

theorem data_newline : ("\n" : String).data = ['\n'] := rfl

theorem data_comma_newline : (",\n" : String).data = [',', '\n'] := rfl

theorem fieldLine_eq_spec (f v : String) :
    fieldLine f v = ("  " ++ f ++ " = " ++ specWrap f v) ++ "," := by
  unfold fieldLine specWrap
  by_cases hf : f = "title" <;> simp [hf]

theorem emittedFieldLines_eq_spec (e : BibTexEntry) :
    emittedFieldLines e = (specFieldLines e).map (fun x => x ++ ",") := by
  unfold emittedFieldLines specFieldLines
  rw [List.map_filterMap]
  congr 1
  funext f
  cases fieldValue e f with
  | none => rfl
  | some v =>
    by_cases hv : pyStripWs v = "" <;> simp [hv, fieldLine_eq_spec]

theorem pyEndsWithComma_append (x : String) : pyEndsWithComma (x ++ ",") = true := by
  unfold pyEndsWithComma
  rw [String.data_append, data_comma, List.getLast?_concat]
  simp

theorem pyDropLast_append (x : String) : pyDropLast (x ++ ",") = x := by
  unfold pyDropLast
  rw [String.data_append, data_comma, List.dropLast_concat]

theorem joinWith_cons (sep a : String) (l : List String) (h : l ≠ []) :
    joinWith sep (a :: l) = a ++ sep ++ joinWith sep l := by
  cases l with
  | nil => exact absurd rfl h
  | cons b t => simp [joinWith]

theorem joinWith_dropLastComma (l : List String) (h : l ≠ []) :
    joinWith "\n" (dropLastComma (l.map (fun x => x ++ ",")) ++ ["\x7d"]) =
      joinWith ",\n" l ++ "\n" ++ "\x7d" := by
  induction l with
  | nil => exact absurd rfl h
  | cons x xs ih =>
    cases xs with
    | nil =>
      simp [dropLastComma, pyEndsWithComma_append, pyDropLast_append, joinWith]
    | cons y ys =>
      have hne : (y :: ys : List String) ≠ [] := by simp
      have hd : dropLastComma ((x :: y :: ys).map (fun s => s ++ ",")) =
          (x ++ ",") :: dropLastComma ((y :: ys).map (fun s => s ++ ",")) := by
        simp [dropLastComma]
      rw [hd, List.cons_append]
      rw [joinWith_cons _ _ _ (by simp)]
      rw [ih hne]
      rw [joinWith_cons ",\n" x (y :: ys) hne]
      apply String.ext
      simp [String.data_append, data_comma, data_newline, data_comma_newline,
        List.append_assoc]

/-! ### Claim theorems -/

/-- C1: for every invocation of the UI pipeline with a non-empty API key
and non-empty input text, agent construction fails with a TypeError
(app.py passes keyword arguments model, router, openrouter_referer and
openrouter_title, which BibFixAgent.__init__ does not accept), the
handler surfaces it as the single user-visible error message, no record
is parsed, no network call is made, and no revised output is produced. -/
theorem c1_ui_agent_construction_fails
    (effective_api_key bibtex_content preferences : String)
    (writeEntry : BibEntry → String)
    (revise : String → String → Except String String)
    (hk : effective_api_key ≠ "") (hc : bibtex_content ≠ "") :
    (fixBibtexHandler effective_api_key bibtex_content preferences writeEntry revise).errorMsg
        = some "An error occurred: TypeError: unexpected keyword argument model"
      ∧ (fixBibtexHandler effective_api_key bibtex_content preferences writeEntry revise).output = none
      ∧ (fixBibtexHandler effective_api_key bibtex_content preferences writeEntry revise).events
        = [UIEvent.agentInit]
      ∧ UIEvent.parseRecords ∉
        (fixBibtexHandler effective_api_key bibtex_content preferences writeEntry revise).events
      ∧ UIEvent.networkCall ∉
        (fixBibtexHandler effective_api_key bibtex_content preferences writeEntry revise).events := by
  have hh : fixBibtexHandler effective_api_key bibtex_content preferences writeEntry revise
      = { errorMsg := some "An error occurred: TypeError: unexpected keyword argument model",
          warningMsg := none, output := none, events := [UIEvent.agentInit] } := by
    unfold fixBibtexHandler
    rw [if_neg hk, if_neg hc]
    rfl
  rw [hh]
  refine ⟨rfl, rfl, rfl, ?_, ?_⟩ <;> decide

/-- C1 witness at a concrete invocation. -/
theorem c1_witness :
    (fixBibtexHandler "sk-key" "@misc\x7bk\x7d" "" (fun _ => "") (fun _ _ => Except.ok "")).output
      = none :=
  (c1_ui_agent_construction_fails "sk-key" "@misc\x7bk\x7d" "" (fun _ => "")
    (fun _ _ => Except.ok "") (by decide) (by decide)).2.1

theorem firstAuthorOf_spec (a : String) : firstAuthorOf a = specFirstAuthor (some a) := by
  by_cases ha : a = ""
  · subst ha
    decide
  · simp [firstAuthorOf, specFirstAuthor, ha]

/-- C3: for every parsed record, the first author of the fingerprint
follows the ordered policy of the claim: the trimmed substring before
the first `" and "` when that separator occurs, else the trimmed
substring before the first comma when a comma occurs, else the whole
trimmed author string, and the empty string when the record has no
author field. -/
theorem c3_first_author_policy (e : BibEntry) :
    (fingerprintOfEntry e).firstAuthor = specFirstAuthor (e.fields.lookup "author") := by
  unfold fingerprintOfEntry entryGetD
  cases h : e.fields.lookup "author" with
  | none => simp [specFirstAuthor, firstAuthorOf]
  | some a => simpa using firstAuthorOf_spec a

/-- C4 counterexample: the claim says title normalization strips exactly
one or two layers of enclosing braces and nothing more, so a title field
value enclosed in three layers would keep its innermost layer; the code
(Python `strip`) removes every leading and trailing brace, giving `a`
instead of `\x7ba\x7d` on the entry whose title value is
`\x7b\x7b\x7ba\x7d\x7d\x7d`. -/
theorem c4_counterexample :
    (fingerprintOfEntry c4Entry).title = "a"
      ∧ specStripOneOrTwoLayers (entryGetD c4Entry "title" "") = "\x7ba\x7d"
      ∧ (fingerprintOfEntry c4Entry).title ≠ specStripOneOrTwoLayers (entryGetD c4Entry "title" "") := by
  refine ⟨rfl, rfl, ?_⟩
  decide

/-- C4 amended: title normalization removes every leading and every
trailing brace character of the title field value, regardless of the
number of layers or of balance: the value decomposes as a brace-only
prefix, the normalized title, and a brace-only suffix, and the
normalized title neither starts nor ends with a brace character. -/
theorem c4_title_strip_all_braces (e : BibEntry) :
    (∃ a b, (entryGetD e "title" "").data
        = a ++ ((fingerprintOfEntry e).title.data ++ b)
      ∧ (∀ c ∈ a, isBraceChar c = true) ∧ (∀ c ∈ b, isBraceChar c = true))
      ∧ (∀ c, (fingerprintOfEntry e).title.data.head? = some c → isBraceChar c = false)
      ∧ (∀ c, (fingerprintOfEntry e).title.data.getLast? = some c → isBraceChar c = false) := by
  have ht : (fingerprintOfEntry e).title.data
      = stripBy isBraceChar (entryGetD e "title" "").data := rfl
  refine ⟨?_, ?_, ?_⟩
  · rw [ht]
    exact stripBy_decomp isBraceChar (entryGetD e "title" "").data
  · intro c hc
    rw [ht] at hc
    exact stripBy_head? hc
  · intro c hc
    rw [ht] at hc
    exact stripBy_getLast? hc

/-- C4 witness: the amended theorem applied at the concrete entry of the
counterexample, discharging the head hypothesis there. -/
theorem c4_witness : isBraceChar 'a' = false :=
  (c4_title_strip_all_braces c4Entry).2.1 'a' rfl

/-- C2 counterexample: on the scenario input the fingerprint's first
author is `Doe` (the code splits at the first comma of `Doe, John`),
not `Doe, John` as the claim states, and the composed prompt does not
contain the substring `First Author: Doe, John`. -/
theorem c2_counterexample :
    parse_bibtex c2Input
        = Except.ok { title := "a study", firstAuthor := "Doe",
                      entryType := "article", citationKey := "doe2020" }
      ∧ ("Doe" : String) ≠ "Doe, John"
      ∧ strContains (create_prompt c2Input "a study" "Doe" "" none)
          "First Author: Doe, John" = false := by
  refine ⟨rfl, by decide, by decide⟩

/-- C2 amended: the scenario input parses to the Fingerprint with title
`a study`, first author `Doe`, entry type `article` and citation key
`doe2020`, and the composed prompt contains the substrings
`Title: "a study"` and `First Author: Doe`. -/
theorem c2_scenario_amended :
    parse_bibtex c2Input
        = Except.ok { title := "a study", firstAuthor := "Doe",
                      entryType := "article", citationKey := "doe2020" }
      ∧ strContains (create_prompt c2Input "a study" "Doe" "" none)
          "Title: \"a study\"" = true
      ∧ strContains (create_prompt c2Input "a study" "Doe" "" none)
          "First Author: Doe" = true := by
  refine ⟨rfl, by decide, by decide⟩

/-- C10: the fingerprint is derived solely from the first parsed entry:
two inputs whose parses have the same first entry (whatever follows it)
give the same parse result. -/
theorem c10_first_entry_only (t t2 : String) (h : bibtexLoads t ≠ [])
    (hh : (bibtexLoads t2).head? = (bibtexLoads t).head?) :
    parse_bibtex t2 = parse_bibtex t := by
  unfold parse_bibtex
  cases ht : bibtexLoads t with
  | nil => exact absurd ht h
  | cons e r =>
    rw [ht] at hh
    cases ht2 : bibtexLoads t2 with
    | nil =>
      rw [ht2] at hh
      simp at hh
    | cons e2 r2 =>
      rw [ht2] at hh
      simp at hh
      rw [hh]

/-- C10 witness: appending a second record to the scenario input does
not change the parse result. -/
theorem c10_witness : parse_bibtex c10Input = parse_bibtex c2Input :=
  c10_first_entry_only c2Input c10Input (by decide) (by decide)

/-- C5 counterexample: the claim asserts that in strict mode with the
direct provider the augmented web-search strategy is attempted between
the structured stage and the plain stage; but when the structured
request raises, the code falls back directly to the plain strategy and
the augmented stage is never attempted. -/
theorem c5_counterexample : ¬ claimC5Chain := by
  intro h
  have h2 := h (Except.error "boom") (Except.ok "out") (fun _ => true)
    (fun ent hc => Except.noConfusion hc) (by decide)
  exact absurd h2 (by decide)

/-- C5 amended: in strict mode with the direct provider the chain is
structured-then-plain: on structured success the serialized result is
returned and only the structured stage runs; when the structured stage
raises or yields no parsed entry, the plain (traditional) strategy is
attempted directly; no augmented web-search stage exists in this
chain. -/
theorem c5_strict_chain (sResp : Except String (Option BibTexEntry))
    (plain : Except String String) (validate : String → Bool) :
    Stage.augmentedStage ∉ (structured_revise "openai" true sResp plain validate).trace
      ∧ (∀ ent, sResp = Except.ok (some ent) →
          (structured_revise "openai" true sResp plain validate).result
              = Except.ok (structured_entry_to_bibtex ent)
            ∧ (structured_revise "openai" true sResp plain validate).trace
              = [Stage.structuredStage])
      ∧ ((∀ ent, sResp ≠ Except.ok (some ent)) →
          (structured_revise "openai" true sResp plain validate).trace
              = [Stage.structuredStage, Stage.plainStage]
            ∧ (structured_revise "openai" true sResp plain validate).result
              = (traditional_result plain validate).1) := by
  cases sResp with
  | error e =>
    refine ⟨by simp [structured_revise], ?_, ?_⟩
    · intro ent hent
      exact Except.noConfusion hent
    · intro _
      exact ⟨by simp [structured_revise], by simp [structured_revise]⟩
  | ok v =>
    cases v with
    | none =>
      refine ⟨by simp [structured_revise], ?_, ?_⟩
      · intro ent hent
        simp at hent
      · intro _
        exact ⟨by simp [structured_revise], by simp [structured_revise]⟩
    | some ent0 =>
      refine ⟨by simp [structured_revise], ?_, ?_⟩
      · intro ent hent
        simp at hent
        subst hent
        exact ⟨by simp [structured_revise], by simp [structured_revise]⟩
      · intro hno
        exact absurd rfl (hno ent0)

/-- C5 witness: structured success at a concrete entry returns the
serialized entry. -/
theorem c5_witness :
    (structured_revise "openai" true (Except.ok (some sampleEntry))
        (Except.ok "p") (fun _ => true)).result
      = Except.ok (structured_entry_to_bibtex sampleEntry) :=
  ((c5_strict_chain (Except.ok (some sampleEntry)) (Except.ok "p")
    (fun _ => true)).2.1 sampleEntry rfl).1

theorem resolveFallback_spec (e : String) (plain : Except String String)
    (validate : String → Bool) :
    (∀ c, plain = Except.ok c → (resolveFallback e plain validate).result = Except.ok c)
      ∧ (∀ e2, plain = Except.error e2 →
          ∃ m, (resolveFallback e plain validate).result = Except.error m
            ∧ strContains m e = true ∧ strContains m e2 = true) := by
  constructor
  · intro c hc
    subst hc
    rfl
  · intro e2 he
    subst he
    refine ⟨"Failed to call OpenAI API: " ++ e ++ " | Fallback also failed: " ++ e2,
      rfl, ?_, ?_⟩
    · apply strContains_parts _ _ ("Failed to call OpenAI API: " : String).data
        (" | Fallback also failed: " ++ e2).data
      simp [String.data_append, List.append_assoc]
    · apply strContains_parts _ _
        ("Failed to call OpenAI API: " ++ e ++ " | Fallback also failed: " : String).data []
      simp [String.data_append, List.append_assoc]

/-- C6: in the non-strict resolver, whenever the augmented stage fails
(the request raises, or the extracted text is empty or absent), the
plain strategy is attempted: its content is returned on success, and if
it also raises the terminal error message contains both the
augmented-stage error string and the plain-stage error string. -/
theorem c6_nonstrict_fallback (aug : Except String RespShape)
    (plain : Except String String) (validate : String → Bool) (e : String)
    (h : stage1Failure aug = some e) :
    (∀ c, plain = Except.ok c → (resolveAg aug plain validate).result = Except.ok c)
      ∧ (∀ e2, plain = Except.error e2 →
          ∃ m, (resolveAg aug plain validate).result = Except.error m
            ∧ strContains m e = true ∧ strContains m e2 = true) := by
  cases aug with
  | error e0 =>
    have he : e0 = e := by
      simpa [stage1Failure] using h
    subst he
    simpa [resolveAg] using resolveFallback_spec e0 plain validate
  | ok r =>
    cases hx : extractText r with
    | none =>
      have he : extractionErr = e := by
        simpa [stage1Failure, hx] using h
      subst he
      simpa [resolveAg, hx] using resolveFallback_spec extractionErr plain validate
    | some t =>
      by_cases ht : t = ""
      · subst ht
        have he : extractionErr = e := by
          simpa [stage1Failure, hx] using h
        subst he
        simpa [resolveAg, hx] using resolveFallback_spec extractionErr plain validate
      · exfalso
        rw [stage1Failure, hx] at h
        simp [ht] at h

/-- C6 witness: with a raising augmented stage and a succeeding plain
stage, the plain content is returned. -/
theorem c6_witness :
    (resolveAg (Except.error "augerr") (Except.ok "fixed") (fun _ => true)).result
      = Except.ok "fixed" :=
  (c6_nonstrict_fallback (Except.error "augerr") (Except.ok "fixed")
    (fun _ => true) "augerr" rfl).1 "fixed" rfl

theorem data_open_brace : ("\x7b" : String).data = [openBr] := rfl

theorem data_at : ("@" : String).data = ['@'] := rfl

theorem data_newline_close_brace : ("\n\x7d" : String).data = ['\n', closeBr] := rfl

theorem data_close_brace : ("\x7d" : String).data = [closeBr] := rfl

/-- C7: the serializer emits the header line, then the fields in the
fixed order with empty or whitespace-only values omitted, the title
value doubled-braced and every other value single-braced, each field
line followed by a comma except the final one, then the closing brace
(stated for entries that emit at least one field line). -/
theorem c7_serializer (e : BibTexEntry) (h : specFieldLines e ≠ []) :
    structured_entry_to_bibtex e = specSerialize e := by
  unfold structured_entry_to_bibtex specSerialize
  rw [emittedFieldLines_eq_spec]
  obtain ⟨z, t, hz⟩ : ∃ z t, (specFieldLines e).map (fun x => x ++ ",") = z :: t := by
    cases hm : (specFieldLines e).map (fun x => x ++ ",") with
    | nil => exact absurd (List.map_eq_nil_iff.mp hm) h
    | cons z t => exact ⟨z, t, rfl⟩
  rw [hz]
  have hdc : dropLastComma (headerLine e :: z :: t)
      = headerLine e :: dropLastComma (z :: t) := by
    simp [dropLastComma]
  rw [hdc, List.cons_append,
    joinWith_cons _ _ _ (List.append_ne_nil_of_right_ne_nil _ (by simp)),
    ← hz, joinWith_dropLastComma _ h]
  apply String.ext
  simp [headerLine, String.data_append, data_at, data_open_brace, data_comma,
    data_newline, data_comma_newline, data_newline_close_brace, data_close_brace,
    List.append_assoc]

/-- C7 witness: the serializer agrees with the spec-side serialization
on a concrete entry with all optional fields absent. -/
theorem c7_witness :
    specFieldLines sampleEntry ≠ []
      ∧ structured_entry_to_bibtex sampleEntry = specSerialize sampleEntry :=
  ⟨by decide, c7_serializer sampleEntry (by decide)⟩

/-- C8: when preferences is the empty string, each composed prompt is
exactly the composition with no preferences section; when preferences
is non-empty, the whole preferences section (its explicit header
followed by the verbatim preference text) occurs as a substring of the
composed prompt. -/
theorem c8_preferences (original_bibtex title first_author citation_key prefs : String)
    (instructions : Option String) :
    (prefs = "" →
        create_prompt original_bibtex title first_author prefs instructions
            = promptBase original_bibtex title first_author
              ++ (match instructions with | some i => "\n" ++ i | none => "")
              ++ promptClosing
          ∧ create_structured_prompt original_bibtex title first_author citation_key
              prefs instructions
            = structuredPromptBase original_bibtex title first_author citation_key
              ++ (match instructions with | some i => "\n" ++ i | none => "")
              ++ structuredPromptClosing)
      ∧ (prefs ≠ "" →
        strContains (create_prompt original_bibtex title first_author prefs instructions)
            (prefHeader ++ prefs ++ "\n") = true
          ∧ strContains (create_structured_prompt original_bibtex title first_author
              citation_key prefs instructions)
            (structuredPrefHeader ++ prefs ++ "\n") = true) := by
  constructor
  · intro hp
    subst hp
    constructor
    · simp [create_prompt, String.append_empty, String.append_assoc]
    · simp [create_structured_prompt, String.append_empty, String.append_assoc]
  · intro hp
    constructor
    · apply strContains_parts _ _
        ((promptBase original_bibtex title first_author
          ++ (match instructions with | some i => "\n" ++ i | none => "")).data)
        promptClosing.data
      simp [create_prompt, hp, String.data_append, List.append_assoc]
    · apply strContains_parts _ _
        ((structuredPromptBase original_bibtex title first_author citation_key
          ++ (match instructions with | some i => "\n" ++ i | none => "")).data)
        structuredPromptClosing.data
      simp [create_structured_prompt, hp, String.data_append, List.append_assoc]

/-- C8 witness: a concrete non-empty preference string occurs inside
the preferences section of the composed prompt. -/
theorem c8_witness :
    strContains (create_prompt "o" "t" "f" "x" none) (prefHeader ++ "x" ++ "\n") = true :=
  ((c8_preferences "o" "t" "f" "k" "x" none).2 (by decide)).1

theorem resolveFallback_indep (e : String) (plain : Except String String)
    (v v2 : String → Bool) :
    (resolveFallback e plain v).result = (resolveFallback e plain v2).result
      ∧ (resolveFallback e plain v).trace = (resolveFallback e plain v2).trace := by
  cases plain <;> simp [resolveFallback]

theorem resolveFallback_warns (e : String) (plain : Except String String)
    (v : String → Bool) (t : String)
    (hres : (resolveFallback e plain v).result = Except.ok t) (hv : v t = false) :
    (resolveFallback e plain v).warnings ≠ [] := by
  cases plain with
  | ok c =>
    simp [resolveFallback] at hres ⊢
    subst hres
    simp [hv]
  | error e2 => simp [resolveFallback] at hres

theorem resolveAg_indep (aug : Except String RespShape) (plain : Except String String)
    (v v2 : String → Bool) :
    (resolveAg aug plain v).result = (resolveAg aug plain v2).result
      ∧ (resolveAg aug plain v).trace = (resolveAg aug plain v2).trace := by
  cases aug with
  | error e => simpa [resolveAg] using resolveFallback_indep e plain v v2
  | ok r =>
    cases hx : extractText r with
    | none => simpa [resolveAg, hx] using resolveFallback_indep extractionErr plain v v2
    | some t =>
      by_cases ht : t = ""
      · subst ht
        simpa [resolveAg, hx] using resolveFallback_indep extractionErr plain v v2
      · simp [resolveAg, hx, ht]

theorem resolveAg_warns (aug : Except String RespShape) (plain : Except String String)
    (v : String → Bool) (t : String)
    (hres : (resolveAg aug plain v).result = Except.ok t) (hv : v t = false) :
    (resolveAg aug plain v).warnings ≠ [] := by
  cases aug with
  | error e =>
    rw [resolveAg] at hres ⊢
    exact resolveFallback_warns e plain v t hres hv
  | ok r =>
    cases hx : extractText r with
    | none =>
      rw [resolveAg, hx] at hres ⊢
      exact resolveFallback_warns extractionErr plain v t hres hv
    | some t0 =>
      by_cases ht : t0 = ""
      · subst ht
        rw [resolveAg, hx] at hres ⊢
        simp only [if_pos rfl] at hres ⊢
        exact resolveFallback_warns extractionErr plain v t hres hv
      · rw [resolveAg, hx] at hres ⊢
        simp only [if_neg ht] at hres ⊢
        simp at hres
        subst hres
        simp [hv]

theorem structured_revise_indep (router : String) (u : Bool)
    (sResp : Except String (Option BibTexEntry)) (plain : Except String String)
    (v v2 : String → Bool) :
    (structured_revise router u sResp plain v).result
        = (structured_revise router u sResp plain v2).result
      ∧ (structured_revise router u sResp plain v).trace
        = (structured_revise router u sResp plain v2).trace := by
  cases hru : u && (router == "openai") with
  | false =>
    cases plain <;> simp [structured_revise, hru, traditional_result]
  | true =>
    cases sResp with
    | error e => cases plain <;> simp [structured_revise, hru, traditional_result]
    | ok vv =>
      cases vv with
      | none => cases plain <;> simp [structured_revise, hru, traditional_result]
      | some ent => simp [structured_revise, hru]

theorem traditional_result_warns (plain : Except String String)
    (v : String → Bool) (t : String)
    (hres : (traditional_result plain v).1 = Except.ok t) (hv : v t = false) :
    (traditional_result plain v).2 ≠ [] := by
  cases plain with
  | ok c =>
    simp [traditional_result] at hres ⊢
    subst hres
    simp [hv]
  | error e => simp [traditional_result] at hres

theorem structured_revise_warns (router : String) (u : Bool)
    (sResp : Except String (Option BibTexEntry)) (plain : Except String String)
    (v : String → Bool) (t : String)
    (hres : (structured_revise router u sResp plain v).result = Except.ok t)
    (hv : v t = false) :
    (structured_revise router u sResp plain v).warnings ≠ [] := by
  cases hru : u && (router == "openai") with
  | false =>
    simp only [structured_revise, hru, Bool.false_eq_true, if_false] at hres ⊢
    exact traditional_result_warns plain v t hres hv
  | true =>
    cases sResp with
    | error e =>
      simp only [structured_revise, hru, if_true] at hres ⊢
      exact traditional_result_warns plain v t hres hv
    | ok vv =>
      cases vv with
      | none =>
        simp only [structured_revise, hru, if_true] at hres ⊢
        exact traditional_result_warns plain v t hres hv
      | some ent =>
        simp only [structured_revise, hru, if_true] at hres ⊢
        simp at hres
        subst hres
        simp [hv]

/-- C9: at every resolver stage that obtains text, the best-effort
parse of that text is non-fatal: the result and the attempted-stage
trace of both resolvers are independent of the validation outcome, and
whenever a returned text fails validation only a warning is emitted
while the text is still returned. -/
theorem c9_validation_nonfatal (aug : Except String RespShape)
    (plain : Except String String) (v v2 : String → Bool)
    (router : String) (u : Bool) (sResp : Except String (Option BibTexEntry)) :
    (resolveAg aug plain v).result = (resolveAg aug plain v2).result
      ∧ (resolveAg aug plain v).trace = (resolveAg aug plain v2).trace
      ∧ (∀ t, (resolveAg aug plain v).result = Except.ok t → v t = false →
          (resolveAg aug plain v).warnings ≠ [])
      ∧ (structured_revise router u sResp plain v).result
        = (structured_revise router u sResp plain v2).result
      ∧ (structured_revise router u sResp plain v).trace
        = (structured_revise router u sResp plain v2).trace
      ∧ (∀ t, (structured_revise router u sResp plain v).result = Except.ok t →
          v t = false → (structured_revise router u sResp plain v).warnings ≠ []) :=
  ⟨(resolveAg_indep aug plain v v2).1,
   (resolveAg_indep aug plain v v2).2,
   fun t hres hv => resolveAg_warns aug plain v t hres hv,
   (structured_revise_indep router u sResp plain v v2).1,
   (structured_revise_indep router u sResp plain v v2).2,
   fun t hres hv => structured_revise_warns router u sResp plain v t hres hv⟩

/-- C9 witness: a returned text that fails validation still yields a
result while a warning is recorded. -/
theorem c9_witness :
    (resolveAg (Except.ok (RespShape.rawStr "x")) (Except.ok "y")
        (fun _ => false)).warnings ≠ [] :=
  (c9_validation_nonfatal (Except.ok (RespShape.rawStr "x")) (Except.ok "y")
    (fun _ => false) (fun _ => false) "openai" true (Except.error "")).2.2.1 "x" rfl rfl
